import Mathlib

/-!
Shallow embedding of the AGW client library (repository `agw`): the frame
codec (`src/call.rs`, `src/header.rs`, `src/packet.rs`), the blocking
multiplexer of `src/v1.rs` / `src/lib.rs`, the connect/disconnect paths and
the stream wrapper (`src/wrap.rs`).

Bytes are modelled as `Nat` (values < 256 where the source has `u8`); Rust
`Vec<u8>` becomes `List Nat`; fallible Rust functions returning
`anyhow::Result<T>` become `Except AgwErr T`, with one `AgwErr` constructor
per distinct `Error::msg` site that the claims need to tell apart.
-/

/-- Decidable equality on `Except`, for concrete evaluation of fallible
results. -/
instance {ε α : Type} [DecidableEq ε] [DecidableEq α] :
    DecidableEq (Except ε α) := fun x y =>
  match x, y with
  | .ok a, .ok b =>
    if h : a = b then .isTrue (by rw [h])
    else .isFalse (by simp [h])
  | .error a, .error b =>
    if h : a = b then .isTrue (by rw [h])
    else .isFalse (by simp [h])
  | .ok _, .error _ => .isFalse (by intro h; exact Except.noConfusion h)
  | .error _, .ok _ => .isFalse (by intro h; exact Except.noConfusion h)

namespace Agw

/-- Error kinds.  The source uses `anyhow` string errors; each constructor
corresponds to one error construction site (or to an error produced by a
library call such as `mpsc::Receiver::recv` on a closed channel). -/
inductive AgwErr where
  /-- `call.rs`: callsign longer than 10 bytes or invalid character. -/
  | invalidCall : AgwErr
  /-- `lib.rs` `connect_via`: "tried to connect through too many hops". -/
  | tooManyHops : AgwErr
  /-- `packet.rs` parse: "version packet had wrong length". -/
  | versionLen : AgwErr
  /-- `packet.rs` parse: `String::from_utf8(data)?` failed on a `C` banner. -/
  | badUtf8 : AgwErr
  /-- `packet.rs` parse: "connect missing src" (src or dst absent). -/
  | missingSrc : AgwErr
  /-- `packet.rs` parse: "data with missing src". -/
  | missingDataSrc : AgwErr
  /-- `packet.rs` parse: "data with missing dst". -/
  | missingDataDst : AgwErr
  /-- `packet.rs` parse: "unknown C <banner>". -/
  | unknownBanner : AgwErr
  /-- `packet.rs` parse: "unknown packet kind". -/
  | unknownKind (kind : Nat) : AgwErr
  /-- `v1.rs` `read_connected`: "remote end disconnected". -/
  | remoteDisconnected : AgwErr
  /-- `mpsc::Receiver::recv` returned `RecvError` (channel closed). -/
  | recvError : AgwErr
  /-- `mpsc::Sender::send` failed (channel closed). -/
  | sendError : AgwErr
deriving DecidableEq, Repr

/-- `u8::is_ascii_alphanumeric`: `'0'..='9' | 'A'..='Z' | 'a'..='z'`. -/
def isAsciiAlphanumeric (b : Nat) : Bool :=
  (48 ≤ b && b ≤ 57) || (65 ≤ b && b ≤ 90) || (97 ≤ b && b ≤ 122)

/-- The per-byte admission test of `Call::from_bytes` (`call.rs`): the loop
rejects a byte iff `item != 0 && !item.is_ascii_alphanumeric() && item != b'-'`,
so a byte is admitted iff it is 0, alphanumeric, or `'-'` (45). -/
def validCallByte (b : Nat) : Bool :=
  b == 0 || isAsciiAlphanumeric b || b == 45

/-- `Call` (`call.rs`): a 10-byte array.  The Rust type's only constructor is
`Call::from_bytes`, which guarantees the two invariants recorded here. -/
structure Call where
  bytes : List Nat
  len10 : bytes.length = 10
  valid : bytes.all validCallByte = true

instance : DecidableEq Call := fun a b =>
  decidable_of_iff (a.bytes = b.bytes) (by cases a; cases b; simp)

/-- `Call::from_bytes`: reject length > 10 or an invalid byte; otherwise the
stored form is the input written into a zero-initialised 10-byte array, i.e.
the input padded with trailing zero bytes. -/
def Call.fromBytes (bs : List Nat) : Except AgwErr Call :=
  if h : bs.length > 10 then .error .invalidCall
  else if hv : bs.all validCallByte = true then
    .ok ⟨bs ++ List.replicate (10 - bs.length) 0, by
        simp [Nat.add_sub_cancel' (Nat.le_of_not_lt h)], by
      simp only [List.all_append, hv, Bool.true_and]
      simp [List.all_eq_true]
      exact Or.inr rfl⟩
  else .error .invalidCall

/-- `Call::bytes`. -/
def Call.toBytes (c : Call) : List Nat := c.bytes

/-- `Call::is_empty`: true iff every byte is 0. -/
def Call.isEmpty (c : Call) : Bool := c.bytes.all (· == 0)

/-- `Call::string`: the bytes up to (excluding) the first 0, as text. -/
def Call.string (c : Call) : List Nat := c.bytes.takeWhile (· ≠ 0)

/-- Little-endian 4-byte encoding, `u32::to_le_bytes`. -/
def u32le (n : Nat) : List Nat :=
  [n % 256, n / 256 % 256, n / 65536 % 256, n / 16777216 % 256]

/-- Little-endian 4-byte decoding, `u32::from_le_bytes`. -/
def readU32le (l : List Nat) : Nat :=
  l.getD 0 0 + 256 * l.getD 1 0 + 65536 * l.getD 2 0 + 16777216 * l.getD 3 0

/-- `Header` (`header.rs`): port, pid, data_kind, data_len, optional src/dst. -/
structure Header where
  port : Nat
  pid : Nat
  dataKind : Nat
  dataLen : Nat
  src : Option Call
  dst : Option Call
deriving DecidableEq

/-- `HEADER_LEN` (`header.rs`). -/
def HEADER_LEN : Nat := 36

/-- Callsign field bytes: a present callsign's 10-byte form, zeros otherwise
(`header.rs` leaves the zero-initialised bytes for an absent callsign). -/
def callField : Option Call → List Nat
  | none => List.replicate 10 0
  | some c => c.bytes

/-- `Header::serialize` (`header.rs`): a zero 36-byte vector with
`v[0] = port`, `v[4] = data_kind`, `v[6] = pid`, src spliced at 8..18,
dst at 18..28, and `data_len` little-endian at 28..32. -/
def Header.serialize (h : Header) : List Nat :=
  [h.port, 0, 0, 0, h.dataKind, 0, h.pid, 0]
    ++ callField h.src ++ callField h.dst ++ u32le h.dataLen ++ [0, 0, 0, 0]

/-- `parse_header` (`v1.rs`, identical in `lib.rs`): bytes 8..18 and 18..28 go
through `Call::from_bytes`, with the all-zero call mapped to `None`; port, kind
and pid are bytes 0, 4 and 6; `data_len` is `u32` LE at 28..32. -/
def parseHeader (bs : List Nat) : Except AgwErr Header := do
  let src ← Call.fromBytes ((bs.drop 8).take 10)
  let src := if src.isEmpty then none else some src
  let dst ← Call.fromBytes ((bs.drop 18).take 10)
  let dst := if dst.isEmpty then none else some dst
  .ok { port := bs.getD 0 0, pid := bs.getD 6 0, dataKind := bs.getD 4 0,
        dataLen := readU32le ((bs.drop 28).take 4), src, dst }

/-- `Header::new(port, data_kind, pid, src, dst, data_len)`. -/
def Header.new (port kind pid : Nat) (src dst : Option Call) (dataLen : Nat) :
    Header :=
  { port, pid, dataKind := kind, dataLen, src, dst }

/-- The shape of a UTF-8 sequence led by byte `b` (RFC 3629): `none` for an
illegal lead byte, otherwise the number of continuation bytes together with
the admissible range of the first of them (later continuation bytes always
range over `0x80..=0xBF`). -/
def utf8Need (b : Nat) : Option (Nat × Nat × Nat) :=
  if b ≤ 0x7F then some (0, 0x80, 0xBF)
  else if 0xC2 ≤ b && b ≤ 0xDF then some (1, 0x80, 0xBF)
  else if b = 0xE0 then some (2, 0xA0, 0xBF)
  else if (0xE1 ≤ b && b ≤ 0xEC) || b = 0xEE || b = 0xEF then some (2, 0x80, 0xBF)
  else if b = 0xED then some (2, 0x80, 0x9F)
  else if b = 0xF0 then some (3, 0x90, 0xBF)
  else if 0xF1 ≤ b && b ≤ 0xF3 then some (3, 0x80, 0xBF)
  else if b = 0xF4 then some (3, 0x80, 0x8F)
  else none

/-- `k` continuation bytes at the head of `r`, the first within `lo..=hi`,
the rest within `0x80..=0xBF`. -/
def utf8ContsOk (lo hi k : Nat) (r : List Nat) : Bool :=
  match k, r with
  | 0, _ => true
  | _ + 1, [] => false
  | k2 + 1, c :: rest => (lo ≤ c && c ≤ hi) && utf8ContsOk 0x80 0xBF k2 rest

/-- Fuelled worker for `utf8Valid`: structural recursion on `fuel` so that
concrete instances reduce in the kernel.  Each step consumes the lead byte
and its `k` continuation bytes; with `fuel ≥ l.length` the fuel never runs
out, since every step strictly shortens the list. -/
def utf8ValidFuel : Nat → List Nat → Bool
  | _, [] => true
  | 0, _ :: _ => false
  | fuel + 1, b :: r =>
    match utf8Need b with
    | none => false
    | some (k, lo, hi) => utf8ContsOk lo hi k r && utf8ValidFuel fuel (r.drop k)

/-- Validity of a byte sequence as UTF-8 (RFC 3629), as decided by Rust's
`String::from_utf8` in `Packet::parse`'s `C` branch. -/
def utf8Valid (l : List Nat) : Bool := utf8ValidFuel l.length l

/-- ASCII bytes of `"*** CONNECTED WITH"` (parse needle, `packet.rs`). -/
def txtConnectedWITH : List Nat :=
  [42, 42, 42, 32, 67, 79, 78, 78, 69, 67, 84, 69, 68, 32, 87, 73, 84, 72]

/-- ASCII bytes of `"*** CONNECTED With Station "` (trailing space): both the
parse needle and the text `Packet::serialize` emits for
`ConnectionEstablished` before the source callsign. -/
def txtConnectedWithStation : List Nat :=
  [42, 42, 42, 32, 67, 79, 78, 78, 69, 67, 84, 69, 68, 32, 87, 105, 116, 104,
   32, 83, 116, 97, 116, 105, 111, 110, 32]

/-- ASCII bytes of `"*** CONNECTED To Station "` (trailing space): the text
`Packet::serialize` emits for `IncomingConnect` before the source callsign. -/
def txtConnectedToStation : List Nat :=
  [42, 42, 42, 32, 67, 79, 78, 78, 69, 67, 84, 69, 68, 32, 84, 111, 32, 83,
   116, 97, 116, 105, 111, 110, 32]

/-- ASCII bytes of `"*** CONNECTED To Station"` — the parse needle in
`packet.rs`, which (unlike the serialized text) has no trailing space. -/
def txtConnectedToStationNoSp : List Nat :=
  [42, 42, 42, 32, 67, 79, 78, 78, 69, 67, 84, 69, 68, 32, 84, 111, 32, 83,
   116, 97, 116, 105, 111, 110]

/-- The `Packet` enum (`packet.rs`). -/
inductive Packet where
  | versionQuery : Packet
  | versionReply (major minor : Nat) : Packet
  | portCap (port : Nat) : Packet
  | portInfo (port : Nat) : Packet
  | registerCallsign (port pid : Nat) (src : Call) : Packet
  | connect (port pid : Nat) (src dst : Call) : Packet
  | connectVia (port pid : Nat) (src dst : Call) (via : List Call) : Packet
  | incomingConnect (port pid : Nat) (src dst : Call) : Packet
  | connectionEstablished (port pid : Nat) (src dst : Call) : Packet
  | disconnect (port pid : Nat) (src dst : Call) : Packet
  | unproto (port pid : Nat) (src dst : Call) (data : List Nat) : Packet
  | data (port pid : Nat) (src dst : Call) (data : List Nat) : Packet
deriving DecidableEq

/-- `Packet::serialize` (`packet.rs`).  Byte tags: `'R'` 82, `'C'` 67,
`'v'` 118, `'X'` 88, `'d'` 100, `'D'` 68, `'M'` 77, `'G'` 71, `'g'` 103.
`as u8` / `as u32` truncations are written as `% 256`; the `u32` truncation of
`data.len()` is absorbed by `u32le`'s per-byte `% 256`.  Note that only the
`Data` and `Unproto` arms put the payload length into the header's `data_len`
field; the other payload-carrying arms build their header with `data_len = 0`
and then concatenate the payload. -/
def Packet.serialize : Packet → List Nat
  | .versionQuery => (Header.new 0 82 0 none none 0).serialize
  | .versionReply maj min =>
      (Header.new 0 82 0 none none 0).serialize
        ++ [maj % 256, maj / 256 % 256, 0, 0, min % 256, min / 256 % 256, 0, 0]
  | .connect port pid src dst =>
      (Header.new port 67 pid (some src) (some dst) 0).serialize
  | .incomingConnect port pid src dst =>
      (Header.new port 67 pid (some src) (some dst) 0).serialize
        ++ txtConnectedToStation ++ src.string
  | .connectionEstablished port pid src dst =>
      (Header.new port 67 pid (some src) (some dst) 0).serialize
        ++ txtConnectedWithStation ++ src.string
  | .connectVia port pid src dst via =>
      (Header.new port 118 pid (some src) (some dst) 0).serialize
        ++ (via.length % 256) :: (via.map Call.bytes).flatten
  | .registerCallsign port pid src =>
      (Header.new port 88 pid (some src) none 0).serialize
  | .disconnect port pid src dst =>
      (Header.new port 100 pid (some src) (some dst) 0).serialize
  | .data port pid src dst d =>
      (Header.new port 68 pid (some src) (some dst) d.length).serialize ++ d
  | .unproto port pid src dst d =>
      (Header.new port 77 pid (some src) (some dst) d.length).serialize ++ d
  | .portInfo port => (Header.new port 71 0 none none 0).serialize
  | .portCap port => (Header.new port 103 0 none none 0).serialize

/-- `Packet::parse(header, data)` (`packet.rs`).  The `C` branch first decodes
the payload as UTF-8 (`String::from_utf8(data)?`); since every needle below is
pure ASCII, Rust's `str::starts_with` on the decoded string coincides with a
byte-level prefix test, which is how it is modelled here.  Both the missing-src
and the missing-dst error in the `C` branch use the source's (copy-pasted)
"connect missing src" message, hence the shared `missingSrc`. -/
def Packet.parse (h : Header) (data : List Nat) : Except AgwErr Packet :=
  if h.dataKind = 82 then
    if data.length ≠ 8 then .error .versionLen
    else
      .ok (.versionReply (data.getD 0 0 + 256 * data.getD 1 0)
        (data.getD 4 0 + 256 * data.getD 5 0))
  else if h.dataKind = 67 then
    if utf8Valid data then
      match h.src, h.dst with
      | some src, some dst =>
        if txtConnectedWITH.isPrefixOf data
            || txtConnectedWithStation.isPrefixOf data then
          .ok (.connectionEstablished h.port h.pid src dst)
        else if txtConnectedToStationNoSp.isPrefixOf data then
          .ok (.incomingConnect h.port h.pid src dst)
        else .error .unknownBanner
      | none, _ => .error .missingSrc
      | some _, none => .error .missingSrc
    else .error .badUtf8
  else if h.dataKind = 68 then
    match h.src, h.dst with
    | some src, some dst => .ok (.data h.port h.pid src dst data)
    | none, _ => .error .missingDataSrc
    | some _, none => .error .missingDataDst
  else .error (.unknownKind h.dataKind)

/-- Decoding the serialization of a packet, as the repository's own inbound
path does: the first `HEADER_LEN` bytes through `parse_header`, the rest of
the bytes (the attached payload) through `Packet::parse`. -/
def roundtrip (p : Packet) : Except AgwErr Packet := do
  let bs := p.serialize
  let h ← parseHeader (bs.take HEADER_LEN)
  Packet.parse h (bs.drop HEADER_LEN)

/-- The `Reply` enum of `v1.rs` (identical in `lib.rs`).  `PortCaps` is
stored in the source as the string formatted from the nine decoded fields;
the model carries the fields themselves. -/
inductive Reply where
  | version (maj min : Nat) : Reply
  | callsignRegistration (success : Bool) : Reply
  | portInfo (s : List Nat) : Reply
  | portCaps (rate traffic txDelay txTail persist slotTime maxFrame
      activeConnections bytesPer2min : Nat) : Reply
  | framesOutstandingPort (n : Nat) : Reply
  | framesOutstandingConnection (n : Nat) : Reply
  | heardStations (s : List Nat) : Reply
  | connected (s : List Nat) : Reply
  | connectedData (d : List Nat) : Reply
  | disconnect : Reply
  | monitorConnected (d : List Nat) : Reply
  | monitorSupervisory (d : List Nat) : Reply
  | unproto (d : List Nat) : Reply
  | connectedSent (d : List Nat) : Reply
  | raw (d : List Nat) : Reply
  | unknown (h : Header) (d : List Nat) : Reply
deriving DecidableEq

/-- `parse_reply` (`v1.rs`).  Tags: `'R'` 82, `'X'` 88, `'C'` 67, `'D'` 68,
`'d'` 100, `'T'` 84, `'U'` 85, `'G'` 71, `'g'` 103, `'y'` 121, `'Y'` 89,
`'H'` 72, `'I'` 73, `'S'` 83, `'K'` 75.  The source indexes `data[i]`
directly (panicking on a short payload); the model totalizes those reads with
`getD _ 0` — no claim exercises a short payload on those branches. -/
def parseReply (h : Header) (data : List Nat) : Except AgwErr Reply :=
  if h.dataKind = 82 then
    .ok (.version (data.getD 0 0 + 256 * data.getD 1 0)
      (data.getD 4 0 + 256 * data.getD 5 0))
  else if h.dataKind = 88 then .ok (.callsignRegistration (data.getD 0 0 == 1))
  else if h.dataKind = 67 then
    if utf8Valid data then .ok (.connected data) else .error .badUtf8
  else if h.dataKind = 68 then .ok (.connectedData data)
  else if h.dataKind = 100 then .ok .disconnect
  else if h.dataKind = 84 then .ok (.connectedSent data)
  else if h.dataKind = 85 then .ok (.unproto data)
  else if h.dataKind = 71 then
    if utf8Valid data then .ok (.portInfo data) else .error .badUtf8
  else if h.dataKind = 103 then
    .ok (.portCaps (data.getD 0 0) (data.getD 1 0) (data.getD 2 0)
      (data.getD 3 0) (data.getD 4 0) (data.getD 5 0) (data.getD 6 0)
      (data.getD 7 0) (readU32le ((data.drop 8).take 4)))
  else if h.dataKind = 121 then
    .ok (.framesOutstandingPort (readU32le (data.take 4)))
  else if h.dataKind = 89 then
    .ok (.framesOutstandingConnection (readU32le (data.take 4)))
  else if h.dataKind = 72 then
    if utf8Valid data then .ok (.heardStations data) else .error .badUtf8
  else if h.dataKind = 73 then .ok (.monitorConnected data)
  else if h.dataKind = 83 then .ok (.monitorSupervisory data)
  else if h.dataKind = 75 then .ok (.raw data)
  else .ok (.unknown h data)

/-- The frame-skipping test shared by `AGW::connect` and the scan loop of
`AGW::read_connected` (`v1.rs`): a frame is skipped iff
`head.src().as_ref().map_or(true, |x| x != a) || head.dst().as_ref().map_or(true, |x| x != b)`,
i.e. it is processed only when the header's src is exactly `some a` and its
dst exactly `some b`.  In `read_connected` the pair is `(remote, me)`; in
`connect` it is `(dst, src)` of the request. -/
def skipFrame (a b : Call) (h : Header) : Bool :=
  (h.src.map (fun x => x != a)).getD true || (h.dst.map (fun x => x != b)).getD true

/-- State of the Discipline-A multiplexer of `v1.rs`: the overflow queue
(`rxqueue`) and the not-yet-received contents of the inbound mpsc channel
(`stream`).  The channel is modelled as closed at the end of the list —
in `v1.rs` the reader thread exits (dropping its sender) after forwarding a
`Disconnect`, and `recv()` on the drained, closed channel returns
`RecvError`. -/
structure AgwState where
  rxqueue : List (Header × Reply)
  stream : List (Header × Reply)
deriving DecidableEq

/-- The scan phase of `AGW::read_connected` over the overflow queue: skip
frames not from `(remote → me)`; on the first matching `ConnectedData`, delete
exactly that entry (the source's `split_off` / `pop_front` / `append` dance)
and return its payload; on the first matching `Disconnect`, return the
"remote end disconnected" error with the queue untouched; matching frames of
any other kind are logged and left in place.  `none` means no matching
`ConnectedData`/`Disconnect` is in the queue. -/
def scanQueue (me remote : Call) :
    List (Header × Reply) →
      Option (Except AgwErr (List Nat) × List (Header × Reply))
  | [] => none
  | (h, r) :: rest =>
    if skipFrame remote me h then
      (scanQueue me remote rest).map (fun p => (p.1, (h, r) :: p.2))
    else
      match r with
      | .connectedData d => some (.ok d, rest)
      | .disconnect => some (.error .remoteDisconnected, (h, r) :: rest)
      | _ => (scanQueue me remote rest).map (fun p => (p.1, (h, r) :: p.2))

/-- The blocking phase of `AGW::read_connected`: dequeue from the inbound
channel; any `ConnectedData` — with no check of src/dst — is returned; every
other reply is pushed onto the overflow queue (`rx_enqueue`); a closed channel
surfaces `RecvError`.  Returns (result, final queue, remaining stream). -/
def recvLoop :
    List (Header × Reply) → List (Header × Reply) →
      Except AgwErr (List Nat) × List (Header × Reply) × List (Header × Reply)
  | [], q => (.error .recvError, q, [])
  | (h, r) :: rest, q =>
    match r with
    | .connectedData d => (.ok d, q, rest)
    | _ => recvLoop rest (q ++ [(h, r)])

/-- `AGW::read_connected(me, remote)` (`v1.rs`, identical in `lib.rs`):
scan the overflow queue first; only when the scan finds no matching
`ConnectedData`/`Disconnect` (leaving the queue as it was), fall through to
the blocking receive loop. -/
def readConnected (me remote : Call) (st : AgwState) :
    Except AgwErr (List Nat) × AgwState :=
  match scanQueue me remote st.rxqueue with
  | some (res, q) => (res, ⟨q, st.stream⟩)
  | none =>
    let (res, q, s) := recvLoop st.stream st.rxqueue
    (res, ⟨q, s⟩)

/-- The receive loop of `AGW::connect` (`v1.rs`, identical in `lib.rs`):
dequeue from the inbound channel; a frame whose header is not exactly
`(src = dst-of-request, dst = src-of-request)` is skipped with `continue` —
it is **not** placed in the overflow queue; a matching `Connected` reply
completes the connect with its banner; a matching reply of any other kind is
pushed onto the overflow queue.  Returns (banner, final queue, remaining
stream). -/
def connectLoop (src dst : Call) :
    List (Header × Reply) → List (Header × Reply) →
      Except AgwErr (List Nat × List (Header × Reply) × List (Header × Reply))
  | [], _q => .error .recvError
  | (h, r) :: rest, q =>
    if skipFrame dst src h then connectLoop src dst rest q
    else
      match r with
      | .connected s => .ok (s, q, rest)
      | _ => connectLoop src dst rest (q ++ [(h, r)])

/-- `connect` (`lib.rs`): the direct `C` connect frame. -/
def libConnectFrame (port pid : Nat) (src dst : Call) : List Nat :=
  (Header.new port 67 pid (some src) (some dst) 0).serialize

/-- `connect_via` (`lib.rs`): serialize the `'v'` (118) header, fail with the
too-many-hops error when `via.len() > MAX_HOPS` (7), otherwise append the
hop-count byte (`via.len() as u8`) followed by each via callsign's 10-byte
form. -/
def connectVia (port pid : Nat) (src dst : Call) (via : List Call) :
    Except AgwErr (List Nat) :=
  let h := (Header.new port 118 pid (some src) (some dst) 0).serialize
  if via.length > 7 then .error .tooManyHops
  else .ok (h ++ (via.length % 256) :: (via.map Call.bytes).flatten)

/-- The frames `AGW::connect` (`lib.rs`) hands to the outbound queue, by
`via` list: the single `C` frame when `via` is empty, the single `v` frame
when `connect_via` succeeds (the source then hits `todo!()`, emitting nothing
further), and an error — with nothing emitted — when `connect_via` fails. -/
def libConnectSends (port pid : Nat) (src dst : Call) (via : List Call) :
    Except AgwErr (List (List Nat)) :=
  if via.length = 0 then .ok [libConnectFrame port pid src dst]
  else (connectVia port pid src dst via).map (fun f => [f])

/-- The outbound mpsc channel: `send` fails iff the channel is closed,
otherwise the message is appended to the sequence of emitted frames. -/
structure TxChan where
  closed : Bool
  sent : List (List Nat)
deriving DecidableEq

/-- `AGW::send` / `mpsc::Sender::send`. -/
def TxChan.send (tx : TxChan) (msg : List Nat) : Except AgwErr TxChan :=
  if tx.closed then .error .sendError
  else .ok { tx with sent := tx.sent ++ [msg] }

/-- The identity of a `Connection` (`v1.rs`): port, pid, src, dst. -/
structure ConnParams where
  port : Nat
  pid : Nat
  src : Call
  dst : Call

/-- The mutable flag of a `Connection`. -/
structure ConnState where
  disconnected : Bool
deriving DecidableEq

/-- `Connection::disconnect` (`v1.rs`, identical logic in `lib.rs`): if not
yet disconnected, send one serialized `d` frame and — only when the send
succeeded — set the flag; otherwise do nothing and return Ok. -/
def Connection.disconnect (p : ConnParams) (st : ConnState) (tx : TxChan) :
    Except AgwErr Unit × ConnState × TxChan :=
  if !st.disconnected then
    match tx.send ((Packet.disconnect p.port p.pid p.src p.dst).serialize) with
    | .ok tx2 => (.ok (), ⟨true⟩, tx2)
    | .error e => (.error e, st, tx)
  else (.ok (), st, tx)

/-- `Drop for Connection` (`v1.rs`): call `disconnect()`, logging (i.e.
discarding) any error rather than propagating it. -/
def Connection.drop (p : ConnParams) (st : ConnState) (tx : TxChan) :
    ConnState × TxChan :=
  let (_res, st2, tx2) := Connection.disconnect p st tx
  (st2, tx2)

/-- Outcome of `<Wrap as Read>::read` (`wrap.rs`): a normal return, an I/O
error return, or a panic (from `copy_from_slice` on mismatched lengths). -/
inductive ReadOutcome where
  | ok (n : Nat) : ReadOutcome
  | ioErr : ReadOutcome
  | panicked : ReadOutcome
deriving DecidableEq

/-- `<Wrap as Read>::read` (`wrap.rs`): read from the backend (modelled as the
chunk of bytes the backend read, or an error), apply `wrapper.wrap` to exactly
the bytes read, then `buf.copy_from_slice(&msg)` — which panics unless
`msg.len() == buf.len()` — and return `Ok(msg.len())`. -/
def wrapRead (bufLen : Nat) (backendRead : Except Unit (List Nat))
    (wrapFn : List Nat → Except Unit (List Nat)) : ReadOutcome :=
  match backendRead with
  | .error _ => .ioErr
  | .ok chunk =>
    match wrapFn chunk with
    | .error _ => .ioErr
    | .ok msg => if msg.length = bufLen then .ok msg.length else .panicked

/-- Concrete callsign "A", for concrete instances. -/
def callA : Call := ⟨[65, 0, 0, 0, 0, 0, 0, 0, 0, 0], by decide, by decide⟩

/-- Concrete callsign "B", for concrete instances. -/
def callB : Call := ⟨[66, 0, 0, 0, 0, 0, 0, 0, 0, 0], by decide, by decide⟩

/-- Concrete callsign "M0THC-1", for concrete instances. -/
def callM1 : Call :=
  ⟨[77, 48, 84, 72, 67, 45, 49, 0, 0, 0], by decide, by decide⟩

/-- Concrete callsign "M0THC-2", for concrete instances. -/
def callM2 : Call :=
  ⟨[77, 48, 84, 72, 67, 45, 50, 0, 0, 0], by decide, by decide⟩

/-- The all-zero ("absent") callsign. -/
def callZero : Call := ⟨List.replicate 10 0, by decide, by decide⟩

/-- Normalisation `parse_header` applies to a callsign field: an absent or
all-zero field becomes `none`. -/
def optNorm : Option Call → Option Call
  | none => none
  | some c => if c.isEmpty then none else some c

/-- A `D` (data) frame header as the host emits it, `(src → dst)`. -/
def hdrData (src dst : Call) (len : Nat) : Header :=
  Header.new 0 68 240 (some src) (some dst) len

/-- A `d` (disconnect) frame header as the host emits it. -/
def hdrDisc (src dst : Call) : Header :=
  Header.new 0 100 240 (some src) (some dst) 0

/-- A `C` (connected) frame header as the host emits it. -/
def hdrConn (src dst : Call) : Header :=
  Header.new 0 67 240 (some src) (some dst) 0

/-- A `U` (unproto) frame header as the host emits it. -/
def hdrUnproto (src dst : Call) (len : Nat) : Header :=
  Header.new 0 85 240 (some src) (some dst) len

/-- Whether a `Reply` is a `Connected` (`C`) banner reply. -/
def isConnectedReply : Reply → Bool
  | .connected _ => true
  | _ => false

section Lemmas

lemma callField_length (o : Option Call) : (callField o).length = 10 := by
  cases o with
  | none => simp [callField]
  | some c => simp [callField, c.len10]

lemma ser_drop8 (h : Header) : h.serialize.drop 8
    = callField h.src ++ (callField h.dst ++ (u32le h.dataLen ++ [0, 0, 0, 0])) := by
  simp [Header.serialize]

lemma ser_drop18 (h : Header) : h.serialize.drop 18
    = callField h.dst ++ (u32le h.dataLen ++ [0, 0, 0, 0]) := by
  have e : (18 : Nat) = 8 + 10 := rfl
  rw [e, ← List.drop_drop, ser_drop8, ← callField_length h.src, List.drop_left]

lemma ser_drop28 (h : Header) : h.serialize.drop 28
    = u32le h.dataLen ++ [0, 0, 0, 0] := by
  have e : (28 : Nat) = 18 + 10 := rfl
  rw [e, ← List.drop_drop, ser_drop18, ← callField_length h.dst, List.drop_left]

lemma take_of_len10 (l₁ l₂ : List Nat) (h : l₁.length = 10) :
    (l₁ ++ l₂).take 10 = l₁ := by
  rw [← h, List.take_left]

lemma ser_src (h : Header) : (h.serialize.drop 8).take 10 = callField h.src := by
  rw [ser_drop8, take_of_len10 _ _ (callField_length h.src)]

lemma ser_dst (h : Header) : (h.serialize.drop 18).take 10 = callField h.dst := by
  rw [ser_drop18, take_of_len10 _ _ (callField_length h.dst)]

lemma ser_len (h : Header) : (h.serialize.drop 28).take 4 = u32le h.dataLen := by
  rw [ser_drop28,
    show (4 : Nat) = (u32le h.dataLen).length from by simp [u32le], List.take_left]

lemma ser_length (h : Header) : h.serialize.length = 36 := by
  simp [Header.serialize, callField_length, u32le]

lemma ser_take36 (h : Header) (t : List Nat) :
    (h.serialize ++ t).take 36 = h.serialize := by
  rw [show (36 : Nat) = h.serialize.length from (ser_length h).symm, List.take_left]

lemma ser_drop36 (h : Header) (t : List Nat) :
    (h.serialize ++ t).drop 36 = t := by
  rw [show (36 : Nat) = h.serialize.length from (ser_length h).symm, List.drop_left]

lemma ser_take36_nil (h : Header) : h.serialize.take 36 = h.serialize := by
  rw [show (36 : Nat) = h.serialize.length from (ser_length h).symm, List.take_length]

lemma ser_drop36_nil (h : Header) : h.serialize.drop 36 = [] := by
  rw [show (36 : Nat) = h.serialize.length from (ser_length h).symm, List.drop_length]

lemma fromBytes_own (c : Call) : Call.fromBytes c.bytes = .ok c := by
  unfold Call.fromBytes
  rw [dif_neg (by rw [c.len10]; omega), dif_pos c.valid]
  congr 1
  cases c with
  | mk b l v => simp [l]

lemma fromBytes_zero : Call.fromBytes [0, 0, 0, 0, 0, 0, 0, 0, 0, 0] = .ok callZero := by
  decide

lemma isEmpty_zero : callZero.isEmpty = true := by decide

lemma readU32le_u32le (n : Nat) : readU32le (u32le n) = n % 4294967296 := by
  simp [readU32le, u32le]; omega

lemma parseHeader_serialize (h : Header) :
    parseHeader h.serialize = .ok
      { port := h.port, pid := h.pid, dataKind := h.dataKind,
        dataLen := h.dataLen % 4294967296,
        src := optNorm h.src, dst := optNorm h.dst } := by
  unfold parseHeader
  rw [ser_src, ser_dst, ser_len, readU32le_u32le]
  have g0 : h.serialize.getD 0 0 = h.port := by simp [Header.serialize]
  have g4 : h.serialize.getD 4 0 = h.dataKind := by simp [Header.serialize]
  have g6 : h.serialize.getD 6 0 = h.pid := by simp [Header.serialize]
  rw [g0, g4, g6]
  cases hs : h.src with
  | none =>
    cases hd : h.dst with
    | none =>
      simp only [callField, List.replicate, fromBytes_zero, Except.bind, isEmpty_zero,
        Bind.bind, optNorm, if_pos]
    | some c =>
      simp only [callField, List.replicate, fromBytes_zero, fromBytes_own, Except.bind,
        isEmpty_zero, Bind.bind, optNorm, if_pos]
  | some c =>
    cases hd : h.dst with
    | none =>
      simp only [callField, List.replicate, fromBytes_zero, fromBytes_own, Except.bind,
        isEmpty_zero, Bind.bind, optNorm, if_pos]
    | some c2 =>
      simp only [callField, fromBytes_own, Except.bind, Bind.bind, optNorm]

lemma validCallByte_le (b : Nat) (h : validCallByte b = true) : b ≤ 127 := by
  simp [validCallByte, isAsciiAlphanumeric] at h
  rcases h with h | h | h <;> omega

lemma string_ascii (c : Call) : ∀ b ∈ c.string, b ≤ 127 := by
  intro b hb
  have hmem : b ∈ c.bytes := (List.takeWhile_prefix _).subset hb
  have hv := c.valid
  rw [List.all_eq_true] at hv
  exact validCallByte_le b (by simpa using hv b hmem)

lemma utf8ValidFuel_ascii (fuel : Nat) : ∀ l : List Nat, (∀ b ∈ l, b ≤ 127) →
    l.length ≤ fuel → utf8ValidFuel fuel l = true := by
  induction fuel with
  | zero =>
    intro l h hl
    cases l with
    | nil => rfl
    | cons b r => simp at hl
  | succ f ih =>
    intro l h hl
    cases l with
    | nil => rfl
    | cons b r =>
      rw [utf8ValidFuel]
      rw [show utf8Need b = some (0, 0x80, 0xBF) from by
        unfold utf8Need; rw [if_pos (h b (by simp))]]
      simp only [utf8ContsOk, List.drop_zero, Bool.true_and]
      exact ih r (fun x hx => h x (by simp [hx])) (by simp at hl; omega)

lemma utf8Valid_ascii (l : List Nat) (h : ∀ b ∈ l, b ≤ 127) : utf8Valid l = true :=
  utf8ValidFuel_ascii l.length l h le_rfl

lemma isPrefixOf_self_append (l t : List Nat) : l.isPrefixOf (l ++ t) = true := by
  induction l with
  | nil => simp [List.isPrefixOf]
  | cons a r ih => simp [List.isPrefixOf, ih]

lemma ascii_banner_with (src : Call) :
    ∀ b ∈ txtConnectedWithStation ++ src.string, b ≤ 127 := by
  intro b hb
  rcases List.mem_append.mp hb with h | h
  · have hall : ∀ x ∈ txtConnectedWithStation, x ≤ 127 := by decide
    exact hall b h
  · exact string_ascii src b h

lemma ascii_banner_to (src : Call) :
    ∀ b ∈ txtConnectedToStation ++ src.string, b ≤ 127 := by
  intro b hb
  rcases List.mem_append.mp hb with h | h
  · have hall : ∀ x ∈ txtConnectedToStation, x ≤ 127 := by decide
    exact hall b h
  · exact string_ascii src b h

lemma roundtrip_data (port pid : Nat) (src dst : Call) (d : List Nat)
    (hs : src.isEmpty = false) (hd : dst.isEmpty = false) :
    roundtrip (.data port pid src dst d) = .ok (.data port pid src dst d) := by
  unfold roundtrip
  simp only [Packet.serialize, HEADER_LEN]
  rw [ser_take36, ser_drop36, parseHeader_serialize]
  simp only [Except.bind, Bind.bind]
  simp only [Header.new, optNorm, hs, Bool.false_eq_true, if_neg, hd]
  simp only [Packet.parse]
  norm_num

lemma roundtrip_versionReply (maj min : Nat) (h1 : maj < 65536) (h2 : min < 65536) :
    roundtrip (.versionReply maj min) = .ok (.versionReply maj min) := by
  unfold roundtrip
  simp only [Packet.serialize, HEADER_LEN]
  rw [ser_take36, ser_drop36, parseHeader_serialize]
  simp only [Except.bind, Bind.bind, Header.new, optNorm]
  simp only [Packet.parse]
  simp only [List.length_cons, List.length_nil, List.getD_cons_zero, List.getD_cons_succ]
  norm_num
  constructor <;> omega

lemma roundtrip_established (port pid : Nat) (src dst : Call)
    (hs : src.isEmpty = false) (hd : dst.isEmpty = false) :
    roundtrip (.connectionEstablished port pid src dst)
      = .ok (.connectionEstablished port pid src dst) := by
  unfold roundtrip
  simp only [Packet.serialize, HEADER_LEN, List.append_assoc]
  rw [ser_take36, ser_drop36, parseHeader_serialize]
  simp only [Except.bind, Bind.bind]
  simp only [Header.new, optNorm, hs, Bool.false_eq_true, if_neg, hd]
  simp only [Packet.parse]
  rw [utf8Valid_ascii _ (ascii_banner_with src)]
  rw [show txtConnectedWITH.isPrefixOf (txtConnectedWithStation ++ src.string)
      = false from rfl]
  rw [isPrefixOf_self_append]
  norm_num

lemma roundtrip_incoming (port pid : Nat) (src dst : Call)
    (hs : src.isEmpty = false) (hd : dst.isEmpty = false) :
    roundtrip (.incomingConnect port pid src dst)
      = .ok (.incomingConnect port pid src dst) := by
  unfold roundtrip
  simp only [Packet.serialize, HEADER_LEN, List.append_assoc]
  rw [ser_take36, ser_drop36, parseHeader_serialize]
  simp only [Except.bind, Bind.bind]
  simp only [Header.new, optNorm, hs, Bool.false_eq_true, if_neg, hd]
  simp only [Packet.parse]
  rw [utf8Valid_ascii _ (ascii_banner_to src)]
  rw [show txtConnectedWITH.isPrefixOf (txtConnectedToStation ++ src.string)
      = false from rfl]
  rw [show txtConnectedWithStation.isPrefixOf (txtConnectedToStation ++ src.string)
      = false from rfl]
  rw [show txtConnectedToStation ++ src.string
      = txtConnectedToStationNoSp ++ (32 :: src.string) from rfl]
  rw [isPrefixOf_self_append]
  norm_num

lemma roundtrip_err_versionQuery : (roundtrip .versionQuery).isOk = false := by
  unfold roundtrip
  simp only [Packet.serialize, HEADER_LEN]
  rw [ser_take36_nil, ser_drop36_nil, parseHeader_serialize]
  simp only [Except.bind, Bind.bind, Header.new, optNorm]
  simp [Packet.parse, Except.isOk, Except.toBool]

lemma roundtrip_err_disconnect (port pid : Nat) (src dst : Call) :
    (roundtrip (.disconnect port pid src dst)).isOk = false := by
  unfold roundtrip
  simp only [Packet.serialize, HEADER_LEN]
  rw [ser_take36_nil, ser_drop36_nil, parseHeader_serialize]
  simp only [Except.bind, Bind.bind, Header.new, optNorm]
  simp [Packet.parse, Except.isOk, Except.toBool]

lemma roundtrip_err_connectVia (port pid : Nat) (src dst : Call) (via : List Call) :
    (roundtrip (.connectVia port pid src dst via)).isOk = false := by
  unfold roundtrip
  simp only [Packet.serialize, HEADER_LEN, List.append_assoc]
  rw [ser_take36, ser_drop36, parseHeader_serialize]
  simp only [Except.bind, Bind.bind, Header.new, optNorm]
  simp [Packet.parse, Except.isOk, Except.toBool]

lemma roundtrip_err_register (port pid : Nat) (src : Call) :
    (roundtrip (.registerCallsign port pid src)).isOk = false := by
  unfold roundtrip
  simp only [Packet.serialize, HEADER_LEN]
  rw [ser_take36_nil, ser_drop36_nil, parseHeader_serialize]
  simp only [Except.bind, Bind.bind, Header.new, optNorm]
  simp [Packet.parse, Except.isOk, Except.toBool]

lemma roundtrip_err_unproto (port pid : Nat) (src dst : Call) (d : List Nat) :
    (roundtrip (.unproto port pid src dst d)).isOk = false := by
  unfold roundtrip
  simp only [Packet.serialize, HEADER_LEN]
  rw [ser_take36, ser_drop36, parseHeader_serialize]
  simp only [Except.bind, Bind.bind, Header.new, optNorm]
  simp [Packet.parse, Except.isOk, Except.toBool]

lemma roundtrip_err_portInfo (port : Nat) :
    (roundtrip (.portInfo port)).isOk = false := by
  unfold roundtrip
  simp only [Packet.serialize, HEADER_LEN]
  rw [ser_take36_nil, ser_drop36_nil, parseHeader_serialize]
  simp only [Except.bind, Bind.bind, Header.new, optNorm]
  simp [Packet.parse, Except.isOk, Except.toBool]

lemma roundtrip_err_portCap (port : Nat) :
    (roundtrip (.portCap port)).isOk = false := by
  unfold roundtrip
  simp only [Packet.serialize, HEADER_LEN]
  rw [ser_take36_nil, ser_drop36_nil, parseHeader_serialize]
  simp only [Except.bind, Bind.bind, Header.new, optNorm]
  simp [Packet.parse, Except.isOk, Except.toBool]

lemma roundtrip_err_connect (port pid : Nat) (src dst : Call) :
    (roundtrip (.connect port pid src dst)).isOk = false := by
  unfold roundtrip
  simp only [Packet.serialize, HEADER_LEN]
  rw [ser_take36_nil, ser_drop36_nil, parseHeader_serialize]
  simp only [Except.bind, Bind.bind, Header.new, optNorm]
  by_cases hs : src.isEmpty <;> by_cases hd : dst.isEmpty <;>
    simp [hs, hd, Packet.parse, utf8Valid, utf8ValidFuel, List.isPrefixOf,
      txtConnectedWITH, txtConnectedWithStation, txtConnectedToStationNoSp,
      Except.isOk, Except.toBool]

lemma validCallByte_iff (b : Nat) : validCallByte b = true ↔
    (b = 0 ∨ (48 ≤ b ∧ b ≤ 57) ∨ (65 ≤ b ∧ b ≤ 90) ∨ (97 ≤ b ∧ b ≤ 122) ∨ b = 45) := by
  simp [validCallByte, isAsciiAlphanumeric]
  tauto

lemma call_eq_iff (c₁ c₂ : Call) : c₁ = c₂ ↔ c₁.bytes = c₂.bytes := by
  cases c₁; cases c₂; simp

lemma fromBytes_ok_iff (B : List Nat) :
    (∃ c, Call.fromBytes B = .ok c) ↔
      (B.length ≤ 10 ∧ ∀ b ∈ B, validCallByte b = true) := by
  unfold Call.fromBytes
  by_cases h : B.length > 10
  · simp [h]
  · rw [dif_neg h]
    by_cases hv : B.all validCallByte = true
    · rw [dif_pos hv]
      simp
      exact ⟨by omega, List.all_eq_true.mp hv⟩
    · rw [dif_neg hv]
      simp
      intro h1
      have hf : B.all validCallByte = false := by
        cases hb : B.all validCallByte with
        | false => rfl
        | true => exact absurd hb hv
      simpa [List.all_eq_false] using hf

lemma fromBytes_pad (B : List Nat) (c : Call) (h : Call.fromBytes B = .ok c) :
    c.bytes = B ++ List.replicate (10 - B.length) 0 := by
  unfold Call.fromBytes at h
  by_cases hl : B.length > 10
  · rw [dif_pos hl] at h; exact absurd h (by simp)
  · rw [dif_neg hl] at h
    by_cases hv : B.all validCallByte = true
    · rw [dif_pos hv] at h
      cases h
      rfl
    · rw [dif_neg hv] at h; exact absurd h (by simp)

lemma flatten_call_length (via : List Call) :
    (via.map Call.bytes).flatten.length = 10 * via.length := by
  induction via with
  | nil => rfl
  | cons c rest ih => simp [ih, c.len10]; ring

lemma scanQueue_cons_skip (me remote : Call) (h : Header) (r : Reply)
    (rest : List (Header × Reply)) (hskip : skipFrame remote me h = true) :
    scanQueue me remote ((h, r) :: rest)
      = (scanQueue me remote rest).map (fun p => (p.1, (h, r) :: p.2)) := by
  rw [scanQueue.eq_def]
  simp only [hskip, if_true]

lemma scanQueue_cons_data (me remote : Call) (h : Header) (d : List Nat)
    (rest : List (Header × Reply)) (hskip : skipFrame remote me h = false) :
    scanQueue me remote ((h, .connectedData d) :: rest) = some (.ok d, rest) := by
  rw [scanQueue.eq_def]
  simp only [hskip, Bool.false_eq_true, if_false]

lemma scanQueue_cons_disc (me remote : Call) (h : Header)
    (rest : List (Header × Reply)) (hskip : skipFrame remote me h = false) :
    scanQueue me remote ((h, .disconnect) :: rest)
      = some (.error .remoteDisconnected, (h, .disconnect) :: rest) := by
  rw [scanQueue.eq_def]
  simp only [hskip, Bool.false_eq_true, if_false]

lemma scanQueue_cons_other (me remote : Call) (h : Header) (r : Reply)
    (rest : List (Header × Reply)) (hskip : skipFrame remote me h = false)
    (h1 : ∀ d, r ≠ .connectedData d) (h2 : r ≠ .disconnect) :
    scanQueue me remote ((h, r) :: rest)
      = (scanQueue me remote rest).map (fun p => (p.1, (h, r) :: p.2)) := by
  rw [scanQueue.eq_def]
  simp only [hskip, Bool.false_eq_true, if_false]

lemma scanQueue_error (me remote : Call) : ∀ (l q : List (Header × Reply)) (e : AgwErr),
    scanQueue me remote l = some (.error e, q) → e = .remoteDisconnected ∧ q = l := by
  intro l
  induction l with
  | nil => intro q e hq; rw [scanQueue.eq_def] at hq; simp at hq
  | cons f rest ih =>
    intro q e hq
    obtain ⟨h, r⟩ := f
    by_cases hskip : skipFrame remote me h = true
    · rw [scanQueue_cons_skip me remote h r rest hskip, Option.map_eq_some'] at hq
      obtain ⟨⟨res2, q2⟩, hrec, heq⟩ := hq
      simp only [Prod.mk.injEq] at heq
      have hih := ih q2 e (by rw [← heq.1]; exact hrec)
      exact ⟨hih.1, by rw [← heq.2, hih.2]⟩
    · have hsf : skipFrame remote me h = false := by simpa using hskip
      cases r <;>
        first
        | (rw [scanQueue_cons_data me remote h _ rest hsf] at hq; simp at hq)
        | (rw [scanQueue_cons_disc me remote h rest hsf] at hq
           simp only [Option.some.injEq, Prod.mk.injEq, Except.error.injEq] at hq
           exact ⟨hq.1.symm, hq.2.symm⟩)
        | (rw [scanQueue_cons_other me remote h _ rest hsf
              (by intro d hc; simp at hc) (by intro hc; simp at hc),
            Option.map_eq_some'] at hq
           obtain ⟨⟨res2, q2⟩, hrec, heq⟩ := hq
           simp only [Prod.mk.injEq] at heq
           have hih := ih q2 e (by rw [← heq.1]; exact hrec)
           exact ⟨hih.1, by rw [← heq.2, hih.2]⟩)

lemma recvLoop_cons_data (h : Header) (d : List Nat) (rest q : List (Header × Reply)) :
    recvLoop ((h, .connectedData d) :: rest) q = (.ok d, q, rest) := by
  rw [recvLoop.eq_def]

lemma recvLoop_cons_other (h : Header) (r : Reply) (rest q : List (Header × Reply))
    (h1 : ∀ d, r ≠ .connectedData d) :
    recvLoop ((h, r) :: rest) q = recvLoop rest (q ++ [(h, r)]) := by
  rw [recvLoop.eq_def]
  cases r <;> first | rfl | exact absurd rfl (h1 _)

lemma recvLoop_not_rd : ∀ (stream q : List (Header × Reply)),
    (recvLoop stream q).1 ≠ .error .remoteDisconnected := by
  intro stream
  induction stream with
  | nil => intro q; rw [recvLoop.eq_def]; simp
  | cons f rest ih =>
    intro q
    obtain ⟨h, r⟩ := f
    cases r <;>
      first
      | (rw [recvLoop_cons_data]; simp)
      | (rw [recvLoop_cons_other _ _ _ _ (by intro d hc; simp at hc)]; exact ih _)

lemma readConnected_rd (me remote : Call) (st st' : AgwState)
    (h : readConnected me remote st = (.error .remoteDisconnected, st')) : st' = st := by
  unfold readConnected at h
  cases hscan : scanQueue me remote st.rxqueue with
  | some p =>
    obtain ⟨res, q⟩ := p
    rw [hscan] at h
    simp only [Prod.mk.injEq] at h
    obtain ⟨hres, hst⟩ := h
    have := scanQueue_error me remote st.rxqueue q _ (by rw [hscan, hres])
    rw [← hst]
    cases st with
    | mk rq sm => simp [this.2]
  | none =>
    rw [hscan] at h
    rcases hrec : recvLoop st.stream st.rxqueue with ⟨res, q, s⟩
    rw [hrec] at h
    simp only [Prod.mk.injEq] at h
    have := recvLoop_not_rd st.stream st.rxqueue
    rw [hrec] at this
    exact absurd h.1 this

lemma connectLoop_cons_skip (src dst : Call) (h : Header) (r : Reply)
    (rest q : List (Header × Reply)) (hskip : skipFrame dst src h = true) :
    connectLoop src dst ((h, r) :: rest) q = connectLoop src dst rest q := by
  rw [connectLoop.eq_def]
  simp only [hskip, if_true]

lemma connectLoop_cons_conn (src dst : Call) (h : Header) (s : List Nat)
    (rest q : List (Header × Reply)) (hskip : skipFrame dst src h = false) :
    connectLoop src dst ((h, .connected s) :: rest) q = .ok (s, q, rest) := by
  rw [connectLoop.eq_def]
  simp only [hskip, Bool.false_eq_true, if_false]

lemma connectLoop_cons_other (src dst : Call) (h : Header) (r : Reply)
    (rest q : List (Header × Reply)) (hskip : skipFrame dst src h = false)
    (h1 : ∀ s, r ≠ .connected s) :
    connectLoop src dst ((h, r) :: rest) q
      = connectLoop src dst rest (q ++ [(h, r)]) := by
  rw [connectLoop.eq_def]
  simp only [hskip, Bool.false_eq_true, if_false]

lemma connectLoop_ok (src dst : Call) : ∀ (stream q : List (Header × Reply))
    (s : List Nat) (q' rest : List (Header × Reply)),
    connectLoop src dst stream q = .ok (s, q', rest) →
      ∃ pre h2, stream = pre ++ (h2, Reply.connected s) :: rest ∧
        skipFrame dst src h2 = false ∧
        (∀ f ∈ pre, skipFrame dst src f.1 = true ∨ isConnectedReply f.2 = false) ∧
        q' = q ++ pre.filter (fun f => !skipFrame dst src f.1) := by
  intro stream
  induction stream with
  | nil => intro q s q' rest hq; rw [connectLoop.eq_def] at hq; simp at hq
  | cons f rest0 ih =>
    intro q s q' rest hq
    obtain ⟨h, r⟩ := f
    by_cases hskip : skipFrame dst src h = true
    · rw [connectLoop_cons_skip src dst h r rest0 q hskip] at hq
      obtain ⟨pre, h2, heq, hsk, hall, hq'⟩ := ih q s q' rest hq
      refine ⟨(h, r) :: pre, h2, by simp [heq], hsk, ?_, ?_⟩
      · intro f hf
        rcases List.mem_cons.mp hf with hf | hf
        · subst hf; exact Or.inl hskip
        · exact hall f hf
      · rw [hq', List.filter_cons]
        simp [hskip]
    · have hsf : skipFrame dst src h = false := by simpa using hskip
      by_cases hcr : isConnectedReply r = true
      · obtain ⟨s0, rfl⟩ : ∃ s0, r = .connected s0 := by
          cases r <;> first | exact ⟨_, rfl⟩ | simp [isConnectedReply] at hcr
        rw [connectLoop_cons_conn src dst h s0 rest0 q hsf] at hq
        simp only [Except.ok.injEq, Prod.mk.injEq] at hq
        obtain ⟨hs0, hq0, hr0⟩ := hq
        subst hs0; subst hq0; subst hr0
        exact ⟨[], h, by simp, hsf, by simp, by simp⟩
      · have hcf : isConnectedReply r = false := by simpa using hcr
        have hne : ∀ s0, r ≠ .connected s0 := by
          intro s0 hc; subst hc; simp [isConnectedReply] at hcf
        rw [connectLoop_cons_other src dst h r rest0 q hsf hne] at hq
        obtain ⟨pre, h2, heq, hsk, hall, hq2⟩ := ih _ s q' rest hq
        refine ⟨(h, r) :: pre, h2, by simp [heq], hsk, ?_, ?_⟩
        · intro f hf
          rcases List.mem_cons.mp hf with hf | hf
          · subst hf; exact Or.inr hcf
          · exact hall f hf
        · rw [hq2, List.filter_cons]
          simp [hsf]

end Lemmas

/-- C1: the claim says every serialized frame is the 36-byte header followed
by the attached payload with the `data_len` field (bytes 28..32, u32 LE)
equal to the payload length, i.e. `len(F) = 36 + read_u32_le(F[28..32])`.
The code violates this: `Packet::serialize` builds the `VersionReply` header
with `data_len = 0` and then appends an 8-byte payload, so the emitted frame
is 44 bytes while its `data_len` field reads 0.  (`ConnectVia`,
`IncomingConnect` and `ConnectionEstablished` are broken the same way;
`Data` and `Unproto` do honour the invariant.)  The repository's own readers
(`AGW::reader`, the proxy's `rx_loop`) delimit frames by `data_len`, so such
a frame would desynchronise them — the code, not the claim, is wrong. -/
theorem claim_C1_data_len_violated :
    (Packet.versionReply 4 3).serialize.length = 44 ∧
    readU32le (((Packet.versionReply 4 3).serialize.drop 28).take 4) = 0 ∧
    ((Packet.versionReply 4 3).serialize.drop 36).length = 8 ∧
    (Packet.versionReply 4 3).serialize.length
      ≠ 36 + readU32le (((Packet.versionReply 4 3).serialize.drop 28).take 4) := by
  decide

/-- C2 counterexample: the claim `parse(serialize(V)) = V` for every frame
variant fails at the concrete `Disconnect` frame: its serialization (kind
`'d'` = 100) is rejected by `Packet::parse` as an unknown packet kind. -/
theorem claim_C2_roundtrip_counterexample :
    roundtrip (.disconnect 0 240 callA callB) = .error (.unknownKind 100) ∧
    roundtrip (.disconnect 0 240 callA callB) ≠ .ok (.disconnect 0 240 callA callB) := by
  decide

/-- C2 (amended): `parse(serialize(V)) = V` holds exactly for the variants
the parser understands — `VersionReply` (u16 fields), and `Data`,
`ConnectionEstablished`, `IncomingConnect` with nonempty src and dst; the
serializations of every other variant (`VersionQuery`, `Connect`,
`ConnectVia`, `RegisterCallsign`, `Disconnect`, `Unproto`, `PortInfo`,
`PortCap`) are rejected by `Packet::parse`. -/
theorem claim_C2_roundtrip_subset :
    (∀ maj min : Nat, maj < 65536 → min < 65536 →
      roundtrip (.versionReply maj min) = .ok (.versionReply maj min)) ∧
    (∀ (port pid : Nat) (src dst : Call) (d : List Nat),
      src.isEmpty = false → dst.isEmpty = false →
      roundtrip (.data port pid src dst d) = .ok (.data port pid src dst d)) ∧
    (∀ (port pid : Nat) (src dst : Call), src.isEmpty = false → dst.isEmpty = false →
      roundtrip (.connectionEstablished port pid src dst)
        = .ok (.connectionEstablished port pid src dst)) ∧
    (∀ (port pid : Nat) (src dst : Call), src.isEmpty = false → dst.isEmpty = false →
      roundtrip (.incomingConnect port pid src dst)
        = .ok (.incomingConnect port pid src dst)) ∧
    ((roundtrip .versionQuery).isOk = false) ∧
    (∀ (port pid : Nat) (src dst : Call) (d : List Nat) (via : List Call),
      (roundtrip (.connect port pid src dst)).isOk = false ∧
      (roundtrip (.connectVia port pid src dst via)).isOk = false ∧
      (roundtrip (.registerCallsign port pid src)).isOk = false ∧
      (roundtrip (.disconnect port pid src dst)).isOk = false ∧
      (roundtrip (.unproto port pid src dst d)).isOk = false ∧
      (roundtrip (.portInfo port)).isOk = false ∧
      (roundtrip (.portCap port)).isOk = false) := by
  refine ⟨roundtrip_versionReply, roundtrip_data, roundtrip_established,
    roundtrip_incoming, roundtrip_err_versionQuery, ?_⟩
  intro port pid src dst d via
  exact ⟨roundtrip_err_connect port pid src dst,
    roundtrip_err_connectVia port pid src dst via,
    roundtrip_err_register port pid src,
    roundtrip_err_disconnect port pid src dst,
    roundtrip_err_unproto port pid src dst d,
    roundtrip_err_portInfo port, roundtrip_err_portCap port⟩

/-- C2 witness: the amended round-trip at concrete frames. -/
theorem claim_C2_roundtrip_subset_witness :
    roundtrip (.data 1 240 callM1 callM2 [104, 105])
      = .ok (.data 1 240 callM1 callM2 [104, 105]) ∧
    roundtrip (.versionReply 4 3) = .ok (.versionReply 4 3) ∧
    roundtrip (.connectionEstablished 0 240 callM2 callM1)
      = .ok (.connectionEstablished 0 240 callM2 callM1) ∧
    (roundtrip (.portInfo 2)).isOk = false := by
  refine ⟨?_, ?_, ?_, ?_⟩
  · exact claim_C2_roundtrip_subset.2.1 1 240 callM1 callM2 [104, 105]
      (by decide) (by decide)
  · exact claim_C2_roundtrip_subset.1 4 3 (by decide) (by decide)
  · exact claim_C2_roundtrip_subset.2.2.1 0 240 callM2 callM1 (by decide) (by decide)
  · exact (claim_C2_roundtrip_subset.2.2.2.2.2 2 240 callA callB [] []).2.2.2.2.2.1

/-- C3 counterexample: during `connect(src = A, dst = B)`, a dequeued inbound
`Data` frame for a different circuit (src = M0THC-1, dst = A — exactly the
kind a later `read()` call would match) is skipped by `continue`, not
appended to the overflow queue: the loop completes on the matching
`Connected` frame with the overflow queue still empty.  The claim says such
a frame is appended to the overflow queue rather than discarded. -/
theorem claim_C3_connect_drops :
    connectLoop callA callB
        [(hdrData callM1 callA 1, .connectedData [120]),
         (hdrConn callB callA, .connected txtConnectedWithStation)] []
      = .ok (txtConnectedWithStation, [], []) ∧
    skipFrame callB callA (hdrData callM1 callA 1) = true ∧
    parseReply (hdrData callM1 callA 1) [120] = .ok (.connectedData [120]) := by
  decide

/-- C3 (amended): when `connect()`'s receive loop completes, the stream splits
into a consumed prefix, the completing matching `Connected` frame, and the
unread rest; every consumed frame either did not match `(dst, src)` of the
request or was not a `Connected` reply, and the final overflow queue extends
the initial one with exactly the consumed *matching* frames — the
non-matching dequeued frames are silently discarded, not queued. -/
theorem claim_C3_connect_overflow (src dst : Call)
    (stream q : List (Header × Reply)) (s : List Nat)
    (q' rest : List (Header × Reply))
    (h : connectLoop src dst stream q = .ok (s, q', rest)) :
    ∃ pre h2, stream = pre ++ (h2, Reply.connected s) :: rest ∧
      skipFrame dst src h2 = false ∧
      (∀ f ∈ pre, skipFrame dst src f.1 = true ∨ isConnectedReply f.2 = false) ∧
      q' = q ++ pre.filter (fun f => !skipFrame dst src f.1) :=
  connectLoop_ok src dst stream q s q' rest h

/-- C3 witness: the amended statement at the counterexample's concrete
stream — the filtered prefix is empty, so the dropped frame reaches no
queue. -/
theorem claim_C3_connect_overflow_witness :
    ∃ pre h2,
      [(hdrData callM1 callA 1, Reply.connectedData [120]),
       (hdrConn callB callA, Reply.connected txtConnectedWithStation)]
        = pre ++ (h2, Reply.connected txtConnectedWithStation)
            :: ([] : List (Header × Reply)) ∧
      skipFrame callB callA h2 = false ∧
      (∀ f ∈ pre, skipFrame callB callA f.1 = true ∨ isConnectedReply f.2 = false) ∧
      ([] : List (Header × Reply))
        = [] ++ pre.filter (fun f => !skipFrame callB callA f.1) :=
  claim_C3_connect_overflow callA callB _ [] _ [] [] (by decide)

/-- C4: the claim says every successful `read()` returns the payload of a
`Data` frame whose header src equals the circuit's remote and dst its local
callsign.  The blocking path of `read_connected` returns any `ConnectedData`
reply without checking src/dst (only the overflow-scan path filters): with
an empty overflow queue and a pending inbound `Data` frame from the foreign
circuit M0THC-1 → A, `read()` on circuit (me = A, remote = B) returns that
foreign payload.  The scan path's filtering shows filtering is intended —
the blocking path is the slip. -/
theorem claim_C4_read_unfiltered :
    (readConnected callA callB
        ⟨[], [(hdrData callM1 callA 1, .connectedData [120])]⟩).1 = .ok [120] ∧
    (hdrData callM1 callA 1).src = some callM1 ∧
    callM1 ≠ callB ∧
    parseReply (hdrData callM1 callA 1) [120] = .ok (.connectedData [120]) := by
  decide

/-- C5 counterexample: after the host sends `D "bye"` then `d`, `read()`
returns "bye", but the next `read()` does not return the RemoteDisconnected
error the claim promises: the blocking loop enqueues the dequeued
`Disconnect` into the overflow queue and keeps receiving, so it surfaces
the closed-channel `RecvError` (the reader thread exits after forwarding a
`d`), not "remote end disconnected". -/
theorem claim_C5_disconnect_counterexample :
    readConnected callA callB
        ⟨[], [(hdrData callB callA 3, .connectedData [98, 121, 101]),
              (hdrDisc callB callA, .disconnect)]⟩
      = (.ok [98, 121, 101], ⟨[], [(hdrDisc callB callA, .disconnect)]⟩) ∧
    readConnected callA callB ⟨[], [(hdrDisc callB callA, .disconnect)]⟩
      = (.error .recvError, ⟨[(hdrDisc callB callA, .disconnect)], []⟩) ∧
    AgwErr.recvError ≠ AgwErr.remoteDisconnected := by
  decide

/-- C5 (amended): a `read()` that finds a matching `Disconnect` in the
overflow queue returns the RemoteDisconnected error and leaves the state
unchanged — so every subsequent `read()` returns that error again; in the
"bye"-then-`d` scenario this steady state is reached from the third `read()`
on (the second returns the closed-channel error and parks the `Disconnect`
in the overflow queue). -/
theorem claim_C5_disconnect_sticky (me remote : Call) (st st' : AgwState)
    (h : readConnected me remote st = (.error .remoteDisconnected, st')) :
    st' = st ∧ readConnected me remote st' = (.error .remoteDisconnected, st') ∧
    (readConnected callA callB ⟨[(hdrDisc callB callA, .disconnect)], []⟩).1
      = .error .remoteDisconnected := by
  have hst := readConnected_rd me remote st st' h
  subst hst
  exact ⟨rfl, h, by decide⟩

/-- C5 witness: the sticky error at the concrete post-`d` state. -/
theorem claim_C5_disconnect_sticky_witness :
    (⟨[(hdrDisc callB callA, .disconnect)], []⟩ : AgwState)
        = ⟨[(hdrDisc callB callA, .disconnect)], []⟩ ∧
    readConnected callA callB ⟨[(hdrDisc callB callA, .disconnect)], []⟩
      = (.error .remoteDisconnected, ⟨[(hdrDisc callB callA, .disconnect)], []⟩) ∧
    (readConnected callA callB ⟨[(hdrDisc callB callA, .disconnect)], []⟩).1
      = .error .remoteDisconnected :=
  claim_C5_disconnect_sticky callA callB
    ⟨[(hdrDisc callB callA, .disconnect)], []⟩
    ⟨[(hdrDisc callB callA, .disconnect)], []⟩ (by decide)

/-- C6: `connect()` (lib.rs) with 1–7 via calls emits exactly one `v` frame
whose payload after the 36-byte header is the hop-count byte followed by the
concatenated 10-byte via callsigns; with 8 via calls `connect_via` fails with
the too-many-hops error before anything is handed to the outbound queue, so
no frame is emitted. -/
theorem claim_C6_hop_limit (port pid : Nat) (src dst : Call) (via : List Call) :
    (1 ≤ via.length → via.length ≤ 7 →
      ∃ f, libConnectSends port pid src dst via = .ok [f] ∧
        f.take 36 = (Header.new port 118 pid (some src) (some dst) 0).serialize ∧
        f.drop 36 = via.length :: (via.map Call.bytes).flatten ∧
        f.length = 37 + 10 * via.length) ∧
    (via.length = 8 → libConnectSends port pid src dst via = .error .tooManyHops) := by
  constructor
  · intro h1 h7
    have hm : via.length % 256 = via.length := Nat.mod_eq_of_lt (by omega)
    refine ⟨(Header.new port 118 pid (some src) (some dst) 0).serialize
      ++ via.length :: (via.map Call.bytes).flatten, ?_, ?_, ?_, ?_⟩
    · unfold libConnectSends connectVia
      rw [if_neg (by omega), if_neg (by omega)]
      simp [Except.map, hm]
    · exact ser_take36 _ _
    · exact ser_drop36 _ _
    · rw [List.length_append, ser_length, List.length_cons, flatten_call_length]
      omega
  · intro h8
    unfold libConnectSends connectVia
    rw [if_neg (by omega), if_pos (by omega)]
    rfl

/-- C6 witness: one via call emits the 47-byte `v` frame; eight via calls
yield the too-many-hops error. -/
theorem claim_C6_hop_limit_witness :
    (∃ f, libConnectSends 0 240 callM1 callM2 [callA] = .ok [f] ∧
      f.take 36 = (Header.new 0 118 240 (some callM1) (some callM2) 0).serialize ∧
      f.drop 36 = [callA].length :: ([callA].map Call.bytes).flatten ∧
      f.length = 37 + 10 * [callA].length) ∧
    libConnectSends 0 240 callM1 callM2
        [callA, callA, callA, callA, callA, callA, callA, callA]
      = .error .tooManyHops := by
  constructor
  · exact (claim_C6_hop_limit 0 240 callM1 callM2 [callA]).1 (by decide) (by decide)
  · exact (claim_C6_hop_limit 0 240 callM1 callM2
      [callA, callA, callA, callA, callA, callA, callA, callA]).2 (by decide)

/-- C7 counterexample: the claim's IncomingConnect needle is
`"*** CONNECTED To Station "` (trailing space) and "any other banner yields
an error"; the code's needle omits the trailing space, so the banner
`"*** CONNECTED To StationX"` — matching none of the claim's three needles —
is classified as `IncomingConnect` instead of erroring. -/
theorem claim_C7_banner_counterexample :
    Packet.parse (hdrConn callB callA) (txtConnectedToStationNoSp ++ [88])
      = .ok (.incomingConnect 0 240 callB callA) ∧
    txtConnectedToStation.isPrefixOf (txtConnectedToStationNoSp ++ [88]) = false ∧
    txtConnectedWITH.isPrefixOf (txtConnectedToStationNoSp ++ [88]) = false ∧
    txtConnectedWithStation.isPrefixOf (txtConnectedToStationNoSp ++ [88]) = false := by
  decide

/-- C7 (amended): for a `C` frame with src and dst present and a UTF-8-valid
banner, parsing yields `ConnectionEstablished` iff the banner begins with
`"*** CONNECTED WITH"` or `"*** CONNECTED With Station "`, yields
`IncomingConnect` iff it instead begins with `"*** CONNECTED To Station"`
(no trailing space), and errors on any other banner — never a guessed
classification. -/
theorem claim_C7_banner_classification (h : Header) (src dst : Call) (data : List Nat)
    (hk : h.dataKind = 67) (hs : h.src = some src) (hd : h.dst = some dst)
    (hv : utf8Valid data = true) :
    (Packet.parse h data = .ok (.connectionEstablished h.port h.pid src dst) ↔
      (txtConnectedWITH.isPrefixOf data = true
        ∨ txtConnectedWithStation.isPrefixOf data = true)) ∧
    (Packet.parse h data = .ok (.incomingConnect h.port h.pid src dst) ↔
      (txtConnectedToStationNoSp.isPrefixOf data = true
        ∧ txtConnectedWITH.isPrefixOf data = false
        ∧ txtConnectedWithStation.isPrefixOf data = false)) ∧
    ((txtConnectedWITH.isPrefixOf data = false
        ∧ txtConnectedWithStation.isPrefixOf data = false
        ∧ txtConnectedToStationNoSp.isPrefixOf data = false) →
      Packet.parse h data = .error .unknownBanner) := by
  by_cases h1 : txtConnectedWITH.isPrefixOf data = true <;>
    by_cases h2 : txtConnectedWithStation.isPrefixOf data = true <;>
      by_cases h3 : txtConnectedToStationNoSp.isPrefixOf data = true <;>
        simp [Packet.parse, hk, hs, hd, hv, h1, h2, h3]

/-- C7 witness: the canonical established banner is classified as
`ConnectionEstablished`. -/
theorem claim_C7_banner_classification_witness :
    Packet.parse (hdrConn callB callA) txtConnectedWithStation
      = .ok (.connectionEstablished 0 240 callB callA) := by
  exact (claim_C7_banner_classification (hdrConn callB callA) callB callA
      txtConnectedWithStation rfl rfl rfl (by decide)).1.mpr (Or.inr (by decide))

/-- C8: on an open outbound channel, the first `disconnect()` emits exactly
one serialized `d` frame and sets the flag; a second `disconnect()` emits
nothing and changes nothing; and `drop` after `disconnect()` — which calls
`disconnect()` and discards (logs) any error — emits zero additional
frames. -/
theorem claim_C8_disconnect_idempotent (p : ConnParams) (tx0 : TxChan)
    (hopen : tx0.closed = false) :
    ∃ st1 tx1,
      Connection.disconnect p ⟨false⟩ tx0 = (.ok (), st1, tx1) ∧
      tx1.sent = tx0.sent ++ [(Packet.disconnect p.port p.pid p.src p.dst).serialize] ∧
      Connection.disconnect p st1 tx1 = (.ok (), st1, tx1) ∧
      Connection.drop p st1 tx1 = (st1, tx1) := by
  refine ⟨⟨true⟩, ⟨false, tx0.sent
    ++ [(Packet.disconnect p.port p.pid p.src p.dst).serialize]⟩, ?_, rfl, ?_, ?_⟩
  · unfold Connection.disconnect TxChan.send
    cases tx0 with
    | mk cl se =>
      simp at hopen
      simp [hopen]
  · unfold Connection.disconnect
    simp
  · unfold Connection.drop Connection.disconnect
    simp

/-- C8 witness: the idempotent disconnect on a concrete circuit. -/
theorem claim_C8_disconnect_idempotent_witness :
    ∃ st1 tx1,
      Connection.disconnect ⟨0, 240, callA, callB⟩ ⟨false⟩ ⟨false, []⟩
        = (.ok (), st1, tx1) ∧
      tx1.sent = []
        ++ [(Packet.disconnect 0 240 callA callB).serialize] ∧
      Connection.disconnect ⟨0, 240, callA, callB⟩ st1 tx1 = (.ok (), st1, tx1) ∧
      Connection.drop ⟨0, 240, callA, callB⟩ st1 tx1 = (st1, tx1) :=
  claim_C8_disconnect_idempotent ⟨0, 240, callA, callB⟩ ⟨false, []⟩ rfl

/-- C9: `Call::from_bytes B` succeeds iff `B` is at most 10 bytes and every
byte is 0, ASCII alphanumeric, or `'-'`; on success the stored 10-byte form
is `B` padded with trailing zero bytes; and equality of `Call`s is byte-wise
equality of that 10-byte form. -/
theorem claim_C9_callsign :
    (∀ B : List Nat, (∃ c, Call.fromBytes B = .ok c) ↔
      (B.length ≤ 10 ∧ ∀ b ∈ B, b = 0 ∨ (48 ≤ b ∧ b ≤ 57) ∨ (65 ≤ b ∧ b ≤ 90)
        ∨ (97 ≤ b ∧ b ≤ 122) ∨ b = 45)) ∧
    (∀ (B : List Nat) (c : Call), Call.fromBytes B = .ok c →
      c.bytes = B ++ List.replicate (10 - B.length) 0) ∧
    (∀ c₁ c₂ : Call, c₁ = c₂ ↔ c₁.bytes = c₂.bytes) := by
  refine ⟨?_, fromBytes_pad, call_eq_iff⟩
  intro B
  rw [fromBytes_ok_iff]
  constructor
  · rintro ⟨h1, h2⟩; exact ⟨h1, fun b hb => (validCallByte_iff b).mp (h2 b hb)⟩
  · rintro ⟨h1, h2⟩; exact ⟨h1, fun b hb => (validCallByte_iff b).mpr (h2 b hb)⟩

/-- C9 witness: "M0THC-1" parses; "M0THC-2" is stored zero-padded. -/
theorem claim_C9_callsign_witness :
    (∃ c, Call.fromBytes [77, 48, 84, 72, 67, 45, 49] = .ok c) ∧
    callM2.bytes = [77, 48, 84, 72, 67, 45, 50] ++ List.replicate 3 0 := by
  constructor
  · exact (claim_C9_callsign.1 _).mpr (by decide)
  · exact claim_C9_callsign.2.1 [77, 48, 84, 72, 67, 45, 50] callM2 (by decide)

/-- C10: `Wrap::read` returns normally only when the wrapped data exactly
fills the caller's buffer: whenever `wrap` succeeds with output length
different from `buf.len()` — in particular after every short backend read
under a length-preserving wrapper — `copy_from_slice` panics instead of the
call returning `Ok` or `Err`; and a normal return implies the wrap output
length equals the buffer length. -/
theorem claim_C10_wrap_read (bufLen : Nat) (chunk : List Nat)
    (wrapFn : List Nat → Except Unit (List Nat)) :
    (∀ msg, wrapFn chunk = .ok msg → msg.length ≠ bufLen →
      wrapRead bufLen (.ok chunk) wrapFn = .panicked) ∧
    ((∀ x y, wrapFn x = .ok y → y.length = x.length) → chunk.length < bufLen →
      ∀ msg, wrapFn chunk = .ok msg → wrapRead bufLen (.ok chunk) wrapFn = .panicked) ∧
    (∀ n, wrapRead bufLen (.ok chunk) wrapFn = .ok n →
      ∃ msg, wrapFn chunk = .ok msg ∧ msg.length = bufLen ∧ n = bufLen) := by
  refine ⟨?_, ?_, ?_⟩
  · intro msg hw hne
    unfold wrapRead
    dsimp only
    rw [hw]
    dsimp only
    rw [if_neg hne]
  · intro hlp hlt msg hw
    have hlen := hlp chunk msg hw
    unfold wrapRead
    dsimp only
    rw [hw]
    dsimp only
    rw [if_neg (show ¬msg.length = bufLen by omega)]
  · intro n hn
    unfold wrapRead at hn
    dsimp only at hn
    cases hw : wrapFn chunk with
    | error e => rw [hw] at hn; simp at hn
    | ok msg =>
      rw [hw] at hn
      dsimp only at hn
      by_cases hlen : msg.length = bufLen
      · rw [if_pos hlen] at hn
        simp only [ReadOutcome.ok.injEq] at hn
        exact ⟨msg, rfl, hlen, by omega⟩
      · rw [if_neg hlen] at hn
        simp at hn

/-- C10 witness: a short backend read (2 of 4 bytes) under the identity
(length-preserving) wrapper panics. -/
theorem claim_C10_wrap_read_witness :
    wrapRead 4 (.ok [1, 2]) (fun x => .ok x) = .panicked :=
  (claim_C10_wrap_read 4 [1, 2] (fun x => .ok x)).2.1
    (fun x y hy => by injection hy with h; rw [h]) (by decide) [1, 2] rfl

end Agw
